/-
Verification of the resilient LLM routing plane and its satellites
(circuit breaker, router, conversation store, prompt assembler,
embedding repository, scrape pipeline) of the AI-Scrape-Microservices
repository, as a shallow embedding in Lean 4.

Conventions of the embedding:
* wall-clock time is a `Nat` of seconds, passed explicitly to every
  operation that reads the clock (`time.time()` in the source);
* the Redis store backing a circuit breaker is a record of optional
  `(value, expiry)` pairs; a key read at time `now` yields its value
  only while `now < expiry` (Redis TTL semantics);
* a Redis outage is the boolean `up := false`: every primitive store
  operation of that call raises, which the source catches per the
  fail-open contract;
* provider calls are oracles `String → Nat → Outcome` (prompt and
  per-provider call index to either a text or a raised exception kind);
* fallible Python code is embedded in `Except`.
-/
import Mathlib

namespace RouterM

/-- The `CircuitState` enum of `app/rag/router.py`. -/
inductive CircuitState where
  | CLOSED
  | OPEN
  | HALF_OPEN
deriving DecidableEq, Repr

/-- The `CircuitBreaker.FAILURE_THRESHOLD` constant (failures to trip the circuit). -/
def FAILURE_THRESHOLD : Nat := 5

/-- The `CircuitBreaker.FAILURE_WINDOW` constant in seconds (TTL of the failure counter). -/
def FAILURE_WINDOW : Nat := 300

/-- The `CircuitBreaker.OPEN_DURATION` constant in seconds (cooldown before HALF_OPEN). -/
def OPEN_DURATION : Nat := 120

/-- TTL (seconds) used by `_set_state` for the state and opened-at keys. -/
def STATE_TTL : Nat := 600

/-- The three Redis keys of one breaker (`llm:{provider}:failures`,
`llm:{provider}:circuit_state`, `llm:{provider}:opened_at`), each an
optional value paired with its absolute expiry time. `openedAt` stores
the timestamp recorded when the circuit opened. -/
structure RedisState where
  failures : Option (Nat × Nat) := none
  circuit : Option (CircuitState × Nat) := none
  openedAt : Option (Nat × Nat) := none
deriving DecidableEq, Repr

/-- A Redis GET at time `now`: the value is visible only while unexpired. -/
def getVal {α : Type} (entry : Option (α × Nat)) (now : Nat) : Option α :=
  match entry with
  | some (v, exp) => if now < exp then some v else none
  | none => none

/-- Embeds `CircuitBreaker._set_state`: writes the state key (TTL 600 s) and,
when the new state is OPEN, the opened-at key (TTL 600 s).  The body has
its own try/except, so a store outage (`up = false`) leaves the store
unchanged and raises nothing. -/
def setState (up : Bool) (s : RedisState) (st : CircuitState) (now : Nat) : RedisState :=
  if up then
    let s1 : RedisState := { s with circuit := some (st, now + STATE_TTL) }
    if st = CircuitState.OPEN then
      { s1 with openedAt := some (now, now + STATE_TTL) }
    else s1
  else s

/-- The try-block body of `CircuitBreaker.get_state`; primitive reads
raise when the store is down. -/
def getStateE (up : Bool) (s : RedisState) (now : Nat) :
    Except Unit (CircuitState × RedisState) :=
  if !up then Except.error ()
  else
    match getVal s.circuit now with
    | none => Except.ok (CircuitState.CLOSED, s)
    | some st =>
      if st = CircuitState.OPEN then
        match getVal s.openedAt now with
        | some openedTime =>
          if OPEN_DURATION ≤ now - openedTime then
            Except.ok (CircuitState.HALF_OPEN, setState up s CircuitState.HALF_OPEN now)
          else
            Except.ok (CircuitState.OPEN, s)
        | none => Except.ok (CircuitState.OPEN, s)
      else
        Except.ok (st, s)

/-- Embeds `CircuitBreaker.get_state`: the try body with the RedisError handler
that defaults to CLOSED (fail-open), leaving the store untouched. -/
def getState (up : Bool) (s : RedisState) (now : Nat) : CircuitState × RedisState :=
  match getStateE up s now with
  | Except.ok r => r
  | Except.error _ => (CircuitState.CLOSED, s)

/-- Embeds `CircuitBreaker.record_success`: reads the current state via
`get_state`, deletes the failure counter, and closes the circuit if it
was HALF_OPEN.  The delete raises on an outage and the handler swallows
it. -/
def recordSuccess (up : Bool) (s : RedisState) (now : Nat) : RedisState :=
  let (cur, s1) := getState up s now
  if up then
    let s2 : RedisState := { s1 with failures := none }
    if cur = CircuitState.HALF_OPEN then
      setState up s2 CircuitState.CLOSED now
    else s2
  else s1

/-- Embeds `CircuitBreaker.record_failure`: INCR the failure counter (a fresh
or expired key restarts at 1), refresh its TTL to the failure window,
and trip the circuit OPEN once the counter reaches the threshold.  On
an outage the INCR raises and the handler leaves everything unchanged. -/
def recordFailure (up : Bool) (s : RedisState) (now : Nat) : RedisState :=
  if up then
    let v : Nat :=
      match getVal s.failures now with
      | some n => n + 1
      | none => 1
    let s1 : RedisState := { s with failures := some (v, now + FAILURE_WINDOW) }
    if FAILURE_THRESHOLD ≤ v then
      setState up s1 CircuitState.OPEN now
    else s1
  else s

/-- Embeds `CircuitBreaker.can_attempt`: true when `get_state` is CLOSED or
HALF_OPEN. -/
def canAttempt (up : Bool) (s : RedisState) (now : Nat) : Bool × RedisState :=
  let (st, s1) := getState up s now
  ((st = CircuitState.CLOSED || st = CircuitState.HALF_OPEN), s1)

/-- The windowed failure count visible at time `now` (0 when the counter
key is absent or expired). -/
def failCount (s : RedisState) (now : Nat) : Nat :=
  (getVal s.failures now).getD 0

/-- Exception kinds thrown by a provider call.  `conn` and `timeout`
are the `(ConnectionError, TimeoutError)` the tenacity decorator
retries; `other` is any other exception. -/
inductive ExnKind where
  | conn
  | timeout
  | other
deriving DecidableEq, Repr

/-- The retry predicate of `retry_if_exception_type((ConnectionError,
TimeoutError))`. -/
def retryable : ExnKind → Bool
  | ExnKind.conn => true
  | ExnKind.timeout => true
  | ExnKind.other => false

/-- One provider call either returns a text or raises. -/
inductive Outcome where
  | ok (text : String)
  | exn (k : ExnKind)
deriving DecidableEq, Repr

/-- A provider adapter: stable name plus the behaviour of
`generate_response`, as a function of the prompt and of how many times
this provider has been called so far. -/
structure ProviderB where
  name : String
  behave : String → Nat → Outcome

/-- Embeds `LLMRouter._call_provider` under its tenacity decorator
(`stop_after_attempt(3)`, retry only on `ConnectionError`/`TimeoutError`):
up to three calls, stopping early on success or on a non-retryable
exception; after the third retryable failure the wrapper raises. -/
def callProvider (b : String → Nat → Outcome) (prompt : String) : Except ExnKind String :=
  match b prompt 0 with
  | Outcome.ok t => Except.ok t
  | Outcome.exn k1 =>
    if retryable k1 then
      match b prompt 1 with
      | Outcome.ok t => Except.ok t
      | Outcome.exn k2 =>
        if retryable k2 then
          match b prompt 2 with
          | Outcome.ok t => Except.ok t
          | Outcome.exn k3 => Except.error k3
        else Except.error k2
    else Except.error k1

/-- The attempt-layer tag the router stores in the tuple
`("primary" | "secondary", provider, breaker)` and in the response
metadata (`"static"` for the terminal sink). -/
inductive Layer where
  | primary
  | secondary
  | static
deriving DecidableEq, Repr

/-- An `LLMRouter` instance: primary provider, optional secondary
provider, whether a Redis client was supplied (breakers exist only
then), and whether that Redis is reachable during this request. -/
structure RouterCfg where
  primary : ProviderB
  secondary : Option ProviderB
  redisPresent : Bool
  up : Bool

/-- The mutable Redis content touched by one router instance: the two
breakers' keys plus the per-provider telemetry
(`llm:{provider}:requests` counter and the last-100 `latency_ms` list). -/
structure RouterRedis where
  primaryB : RedisState := {}
  secondaryB : RedisState := {}
  primaryReqs : Nat := 0
  secondaryReqs : Nat := 0
  primaryLat : List Nat := []
  secondaryLat : List Nat := []
deriving DecidableEq, Repr

/-- The router's return value (`text`, `provider`, `fallback_used`, and
the `layer` and `conversation_id` of the metadata). -/
structure RouterResponse where
  text : String
  provider : String
  fallbackUsed : Bool
  layer : Layer
  conversationId : Option String
deriving DecidableEq, Repr

/-- The text of `LLMRouter._get_static_fallback`. -/
def staticFallbackText : String :=
  "⚠️ **Disculpa las molestias técnicas**\n\n" ++
  "Estoy experimentando dificultades temporales con mis sistemas de IA. " ++
  "Por favor, intenta reformular tu pregunta o vuelve en unos minutos. " ++
  "Si necesitas asistencia urgente, contacta directamente con el equipo.\n\n" ++
  "_Sistema de respaldo activado_"

/-- The provider a layer tag denotes (the loop only ever carries tags of
present providers; `static` is never in the list). -/
def providerOf (cfg : RouterCfg) : Layer → ProviderB
  | Layer.primary => cfg.primary
  | Layer.secondary => cfg.secondary.getD cfg.primary
  | Layer.static => cfg.primary

/-- Whether the layer's breaker exists (`primary_breaker` /
`secondary_breaker` are created only when a Redis client was given). -/
def breakerPresent (cfg : RouterCfg) : Layer → Bool
  | Layer.primary => cfg.redisPresent
  | Layer.secondary => cfg.redisPresent && cfg.secondary.isSome
  | Layer.static => false

/-- Read the layer's breaker keys out of the shared Redis record. -/
def breakerOf (st : RouterRedis) : Layer → RedisState
  | Layer.primary => st.primaryB
  | Layer.secondary => st.secondaryB
  | Layer.static => {}

/-- Write the layer's breaker keys back. -/
def setBreaker (st : RouterRedis) (l : Layer) (b : RedisState) : RouterRedis :=
  match l with
  | Layer.primary => { st with primaryB := b }
  | Layer.secondary => { st with secondaryB := b }
  | Layer.static => st

/-- The success-path telemetry of `_call_provider`: INCR the request
counter and LPUSH/LTRIM the latency list (kept to 100 entries), only
when a Redis client exists, and swallowing store errors.  In this
timeless embedding every recorded latency is 0 ms. -/
def recordTelemetry (cfg : RouterCfg) (st : RouterRedis) (l : Layer) : RouterRedis :=
  if cfg.redisPresent && cfg.up then
    match l with
    | Layer.primary =>
      { st with primaryReqs := st.primaryReqs + 1,
                primaryLat := (0 :: st.primaryLat).take 100 }
    | Layer.secondary =>
      { st with secondaryReqs := st.secondaryReqs + 1,
                secondaryLat := (0 :: st.secondaryLat).take 100 }
    | Layer.static => st
  else st

/-- Step 1 of `LLMRouter.generate`: compose the ordered attempt list,
omitting each provider whose breaker denies `can_attempt()`, threading
the lazy OPEN→HALF_OPEN writes `can_attempt` may perform. -/
def composeAttempts (cfg : RouterCfg) (now : Nat) (st : RouterRedis) :
    List Layer × RouterRedis :=
  let (takeP, st1) :=
    if cfg.redisPresent then
      let (ok, b) := canAttempt cfg.up st.primaryB now
      (ok, { st with primaryB := b })
    else (true, st)
  let l1 : List Layer := if takeP then [Layer.primary] else []
  match cfg.secondary with
  | none => (l1, st1)
  | some _ =>
    if cfg.redisPresent then
      let (ok, b) := canAttempt cfg.up st1.secondaryB now
      (l1 ++ if ok then [Layer.secondary] else [], { st1 with secondaryB := b })
    else (l1 ++ [Layer.secondary], st1)

/-- The for-loop of `LLMRouter.generate`: call each surviving entry via
`_call_provider`; on success record breaker success and telemetry and
return the response with `fallback_used = (layer != "primary")`; on
failure record breaker failure and continue. -/
def tryProviders (cfg : RouterCfg) (prompt : String) (convId : Option String)
    (now : Nat) : List Layer → RouterRedis → Option RouterResponse × RouterRedis
  | [], st => (none, st)
  | l :: rest, st =>
    let p := providerOf cfg l
    match callProvider p.behave prompt with
    | Except.ok text =>
      let st1 := recordTelemetry cfg st l
      let st2 :=
        if breakerPresent cfg l then
          setBreaker st1 l (recordSuccess cfg.up (breakerOf st1 l) now)
        else st1
      (some { text := text, provider := p.name,
              fallbackUsed := decide (l ≠ Layer.primary), layer := l,
              conversationId := convId }, st2)
    | Except.error _ =>
      let st1 :=
        if breakerPresent cfg l then
          setBreaker st l (recordFailure cfg.up (breakerOf st l) now)
        else st
      tryProviders cfg prompt convId now rest st1

/-- Embeds `LLMRouter.generate`: attempt list, provider loop, and the terminal
static fallback (`provider_name = "static_fallback"`,
`fallback_used = true`) when every entry failed or was skipped. -/
def generate (cfg : RouterCfg) (prompt : String) (convId : Option String)
    (now : Nat) (st : RouterRedis) : RouterResponse × RouterRedis :=
  let (attempts, st1) := composeAttempts cfg now st
  match tryProviders cfg prompt convId now attempts st1 with
  | (some r, st2) => (r, st2)
  | (none, st2) =>
    ({ text := staticFallbackText, provider := "static_fallback",
       fallbackUsed := true, layer := Layer.static,
       conversationId := convId }, st2)

end RouterM

namespace ChatM

open RouterM

/-- One complete conversation turn (`{"question", "answer", "timestamp"}`
dictionaries of `app/rag/chat.py`); timestamps are `Nat` seconds. -/
structure Turn where
  question : String
  answer : String
  timestamp : Nat
deriving DecidableEq, Repr

/-- The `role` column of the `messages` table. -/
inductive Role where
  | user
  | assistant
deriving DecidableEq, Repr

/-- One row of the `messages` table for a conversation. -/
structure Msg where
  role : Role
  content : String
  createdAt : Nat
deriving DecidableEq, Repr

/-- The Python slice `l[-limit:]`: the last `limit` elements — except
that `limit = 0` yields `l[0:]`, the whole list. -/
def pySliceLast {α : Type} (l : List α) (limit : Nat) : List α :=
  if limit = 0 then l else l.drop (l.length - limit)

/-- The grouping loop of `PostgresConversationStore.get_history`: walk
the fetched messages pairing each `user` row with an immediately
following `assistant` row into a turn, skipping one row otherwise. -/
def groupTurns : List Msg → List Turn
  | u :: a :: rest =>
    if u.role = Role.user ∧ a.role = Role.assistant then
      { question := u.content, answer := a.content, timestamp := u.createdAt }
        :: groupTurns rest
    else
      groupTurns (a :: rest)
  | _ => []

/-- Embeds `PostgresConversationStore.get_history`: the SQL
`SELECT … WHERE conversation_id = %s ORDER BY created_at ASC LIMIT limit*2`
over the conversation's messages (given here already in ascending
`created_at` order, the order `save_turn` produces) is `take (limit*2)`;
the rows are then grouped into turns and sliced `turns[-limit:]`. -/
def pgGetHistory (msgs : List Msg) (limit : Nat) : List Turn :=
  pySliceLast (groupTurns (msgs.take (limit * 2))) limit

/-- Embeds `InMemoryConversationStore.get_history`: `history[-limit:]` over the
stored turn list. -/
def memGetHistory (turns : List Turn) (limit : Nat) : List Turn :=
  pySliceLast turns limit

/-- Embeds `PromptBuilder._estimate_tokens`: the estimate `len(text) // 4`. -/
def estimateTokens (text : String) : Nat :=
  text.length / 4

/-- The history block header of `PromptBuilder.build_history`. -/
def historyHeader : String := "\n\nHistorial de conversación:\n"

/-- The per-turn text `f"Usuario: {q}\nAsistente: {a}\n\n"`. -/
def turnText (t : Turn) : String :=
  "Usuario: " ++ t.question ++ "\nAsistente: " ++ t.answer ++ "\n\n"

/-- The sliding-window loop of `build_history`: iterate turns newest to
oldest, breaking at the first turn whose estimated tokens exceed the
remaining budget (an `Int`, as Python's can go negative), prepending
each included turn. -/
def buildLoop : List Turn → Int → List String → List String
  | [], _, acc => acc
  | t :: ts, remaining, acc =>
    let s := turnText t
    let tk : Int := (estimateTokens s : Int)
    if remaining < tk then acc
    else buildLoop ts (remaining - tk) (s :: acc)

/-- The turn texts `build_history` includes, oldest first. -/
def includedTurns (history : List Turn) (maxTokens : Nat) : List String :=
  buildLoop history.reverse ((maxTokens : Int) - (estimateTokens historyHeader : Int)) []

/-- Embeds `PromptBuilder.build_history`: empty history yields `""`; otherwise
the header followed by the included turn texts. -/
def buildHistory (history : List Turn) (maxTokens : Nat) : String :=
  if history.isEmpty then ""
  else historyHeader ++ String.join (includedTurns history maxTokens)

/-- The cumulative per-piece token estimate of a list of text pieces,
exactly the quantity the sliding-window loop budgets. -/
def sumTokens (pieces : List String) : Nat :=
  (pieces.map estimateTokens).sum

/-- A retrieved document as returned by `find_similar`
(id, content, similarity, metadata). Similarities are embedded as
rationals. -/
structure Doc where
  id : Nat
  content : String
  similarity : Rat
  metadata : List (String × String)
deriving DecidableEq, Repr

/-- Fixed two-decimal rendering of a non-negative rational, standing in
for Python's `f"{similarity:.2f}"`. -/
def formatFixed2 (q : Rat) : String :=
  let c : Int := round (q * 100)
  let frac : Int := c % 100
  toString (c / 100) ++ "." ++
    (if frac < 10 then "0" ++ toString frac else toString frac)

/-- Embeds `PromptBuilder.build_context`: the sentinel line when no documents
were retrieved, otherwise one block per document
`[Documento i - Fuente: source - Similitud: x.xx]` with its content,
joined by `---` separators. -/
def buildContext (docs : List Doc) : String :=
  if docs.isEmpty then
    "No se encontró contexto relevante en la base de datos."
  else
    String.intercalate "\n---\n"
      (docs.enum.map fun p =>
        "[Documento " ++ toString (p.1 + 1) ++ " - Fuente: " ++
        ((p.2.metadata.lookup "source").getD "unknown") ++ " - Similitud: " ++
        formatFixed2 p.2.similarity ++ "]\n" ++ p.2.content ++ "\n")

/-- Embeds `PromptBuilder._default_instruction` (abbreviated constant: the
prompt text plays no role in any property, only its presence in the
assembled prompt). -/
def defaultInstruction : String :=
  "Eres un Asistente de IA profesional representando a Reinaldo Tineo."

/-- Embeds `PromptBuilder.build_prompt`: the f-string laying out instruction,
history block, context block, question and answer cue. -/
def buildPrompt (instruction question context history : String) : String :=
  instruction ++ "\n\n" ++ history ++ "\n\nCONTEXTO DISPONIBLE:\n" ++ context ++
  "\n\nPREGUNTA DEL USUARIO:\n" ++ question ++ "\n\nRESPUESTA:"

/-- One element of the `sources` list assembled by
`RAGChatService.generate_response`. -/
structure Source where
  id : Nat
  content : String
  text : String
  contentPreview : String
  similarity : Rat
  metadata : List (String × String)
deriving DecidableEq, Repr

/-- The response dictionary of `generate_response`. -/
structure ChatResponse where
  answer : String
  sources : List Source
  conversationId : String
deriving DecidableEq, Repr

/-- The conversation store as seen by the orchestrator: both concrete
stores may raise (DB/connection errors), so the operations live in
`Except`. -/
structure ChatStore where
  getHistory : String → Nat → Except String (List Turn)
  saveTurn : String → String → String → Except String Unit

/-- The orchestrator's collaborators: the embedding search, the
conversation store, the router configuration, and the identifier
`uuid.uuid4()` would mint. -/
structure ChatDeps where
  searchSimilar : String → Nat → Rat → Except String (List Doc)
  store : ChatStore
  router : RouterCfg
  freshId : String

/-- The `sources` entry built from one document (with the 200-character
preview rule). -/
def mkSource (d : Doc) : Source :=
  { id := d.id, content := d.content, text := d.content,
    contentPreview :=
      if 200 < d.content.length then d.content.take 200 ++ "..." else d.content,
    similarity := d.similarity, metadata := d.metadata }

/-- Embeds `RAGChatService.generate_response`: resolve the conversation id,
retrieve context (threshold 0.5), fetch history (default limit 10),
assemble the prompt, dispatch through the router, append the backup
notice when a non-static fallback served, persist the turn (uncaught:
a store failure propagates), and return answer, sources and
conversation id.  The router's Redis state is threaded through. -/
def generateResponse (deps : ChatDeps) (question : String)
    (convIdOpt : Option String) (maxCtx : Nat) (now : Nat) (st : RouterRedis) :
    Except String ChatResponse × RouterRedis :=
  let convId := match convIdOpt with | some c => c | none => deps.freshId
  match deps.searchSimilar question maxCtx (1 / 2 : Rat) with
  | Except.error e => (Except.error e, st)
  | Except.ok docs =>
    let contextText := buildContext docs
    match deps.store.getHistory convId 10 with
    | Except.error e => (Except.error e, st)
    | Except.ok history =>
      let historyText := buildHistory history 2048
      let prompt := buildPrompt defaultInstruction question contextText historyText
      let (r, st1) := RouterM.generate deps.router prompt (some convId) now st
      let answer :=
        if r.fallbackUsed && r.provider ≠ "static_fallback" then
          r.text ++ "\n\n_(Respuesta generada por sistema de respaldo)_"
        else r.text
      match deps.store.saveTurn convId question answer with
      | Except.error e => (Except.error e, st1)
      | Except.ok _ =>
        (Except.ok { answer := answer, sources := docs.map mkSource,
                     conversationId := convId }, st1)

end ChatM

namespace EmbM

/-- One row of the `embeddings` table; the scalar type of the vector is
abstract (`α`), since no property depends on float arithmetic. -/
structure EmbRow (α : Type) where
  id : Nat
  content : String
  vec : List α
  metadata : List (String × String)
deriving DecidableEq, Repr

/-- The `embeddings` table plus its id sequence. -/
structure EmbDB (α : Type) where
  rows : List (EmbRow α) := []
  nextId : Nat := 1
deriving DecidableEq, Repr

/-- Modelled from the spec: the `embeddings` table schema (the migration
creating it is not under `src/`).  Per the spec, "Vector dimension is
enforced" at `save` and "embedding dimension: expected vector length;
mismatch is fatal at save": the INSERT into the fixed-dimension vector
column succeeds exactly when the vector's length equals the configured
dimension, and a mismatch raises without storing the row. -/
def dbInsertEmbedding {α : Type} (dim : Nat) (db : EmbDB α) (content : String)
    (vec : List α) (metadata : List (String × String)) :
    Except String (Nat × EmbDB α) :=
  if vec.length = dim then
    Except.ok (db.nextId,
      { rows := db.rows ++ [{ id := db.nextId, content := content,
                              vec := vec, metadata := metadata }],
        nextId := db.nextId + 1 })
  else
    Except.error "vector dimension mismatch"

/-- Embeds `PostgreSQLEmbeddingRepository.save`: renders the vector literal and
runs `INSERT INTO embeddings … RETURNING id` (the insert is
`dbInsertEmbedding`), commits, and returns the fresh id; a raised DB
error propagates. -/
def repoSave {α : Type} (dim : Nat) (db : EmbDB α) (content : String)
    (vec : List α) (metadata : List (String × String)) :
    Except String (Nat × EmbDB α) :=
  dbInsertEmbedding dim db content vec metadata

/-- Embeds `EmbeddingService.ingest`: generate the embedding for the content
(the provider may raise after its retries) and save it through the
repository. -/
def serviceIngest {α : Type} (dim : Nat)
    (embedOf : String → Except String (List α)) (db : EmbDB α)
    (content : String) (metadata : List (String × String)) :
    Except String (Nat × EmbDB α) :=
  match embedOf content with
  | Except.error e => Except.error e
  | Except.ok vec => repoSave dim db content vec metadata

end EmbM

namespace ScrapeM

/-- Embeds `ExtractionRule` dataclass of `app/scrapers/base.py` (`attr` embeds
the `attribute` field; that word is a Lean keyword). -/
structure ExtractionRule where
  selector : String
  attr : Option String := none
  multiple : Bool := false
deriving DecidableEq, Repr

/-- One extracted field value: `multiple=false` yields a scalar string
or `None`; `multiple=true` yields a list (attribute lookups inside it
may be `None`). -/
inductive ExtractVal where
  | scalar (v : Option String)
  | many (vs : List (Option String))
deriving DecidableEq, Repr

/-- The `metadata` of a `ScrapedData`: `{"from_cache": True}` on a cache
hit, `{"timestamp": t}` on a fresh scrape. -/
inductive ScrapeMeta where
  | fromCacheTrue
  | timestampAt (t : Nat)
deriving DecidableEq, Repr

/-- Embeds `ScrapedData` dataclass (field defaults as in the source: `data` and
`metadata` default to `None`). -/
structure ScrapedData where
  url : String
  title : Option String := none
  data : Option (List (String × ExtractVal)) := none
  metadata : Option ScrapeMeta := none
  success : Bool := true
  error : Option String := none
deriving DecidableEq, Repr

/-- The environment of one `ScraperService.scrape` call: configuration,
clock, the ruleset hash (md5 of the canonical JSON, kept abstract), and
the fallible collaborators — cache get/set, browser fetch, HTML parse
(parsed documents have the abstract type `H`), title lookup and
rule extraction.  A raised exception anywhere is an `Except.error`. -/
structure ScrapeEnv (H : Type) where
  cacheEnabled : Bool
  cacheTTL : Nat
  now : Nat
  rulesHash : List (String × ExtractionRule) → String
  cacheGet : String → Except String (Option (Option String × List (String × ExtractVal)))
  cacheSet : String → Option String × List (String × ExtractVal) → Nat → Except String Unit
  fetchPage : String → Except String String
  parse : String → Except String H
  docTitle : H → Option String
  extract : H → ExtractionRule → Except String ExtractVal

/-- The extraction for-loop: evaluate every rule in order, building the
field map; a raised extraction error aborts the whole try-block. -/
def extractAll {H : Type} (env : ScrapeEnv H) (doc : H) :
    List (String × ExtractionRule) → Except String (List (String × ExtractVal))
  | [] => Except.ok []
  | (name, rule) :: rest =>
    match env.extract doc rule with
    | Except.error e => Except.error e
    | Except.ok v =>
      match extractAll env doc rest with
      | Except.error e => Except.error e
      | Except.ok tail => Except.ok ((name, v) :: tail)

/-- The cache-miss tail of the try-block of `ScraperService.scrape`:
fetch the rendered page, parse it, take the title, evaluate every rule,
populate the cache (again only when `use_cache` and the cache are
enabled), and build the success result. -/
def scrapeFresh {H : Type} (env : ScrapeEnv H) (url : String)
    (rules : List (String × ExtractionRule)) (useCache : Bool) (key : String) :
    Except String ScrapedData :=
  match env.fetchPage url with
  | Except.error e => Except.error e
  | Except.ok html =>
    match env.parse html with
    | Except.error e => Except.error e
    | Except.ok doc =>
      let title := env.docTitle doc
      match extractAll env doc rules with
      | Except.error e => Except.error e
      | Except.ok extracted =>
        match (if useCache && env.cacheEnabled then
                env.cacheSet key (title, extracted) env.cacheTTL
               else Except.ok ()) with
        | Except.error e => Except.error e
        | Except.ok _ =>
          Except.ok { url := url, title := title, data := some extracted,
                      metadata := some (ScrapeMeta.timestampAt env.now),
                      success := true }

/-- The try-block of `ScraperService.scrape`: cache lookup (key
`scrape:{url}:{rules_hash}`, only when `use_cache` and the cache is
enabled) returning a hit directly, then the fresh-scrape tail. -/
def scrapeInner {H : Type} (env : ScrapeEnv H) (url : String)
    (rules : List (String × ExtractionRule)) (useCache : Bool) :
    Except String ScrapedData :=
  let key := "scrape:" ++ url ++ ":" ++ env.rulesHash rules
  if useCache && env.cacheEnabled then
    match env.cacheGet key with
    | Except.error e => Except.error e
    | Except.ok (some (title, data)) =>
      Except.ok { url := url, title := title, data := some data,
                  metadata := some ScrapeMeta.fromCacheTrue, success := true }
    | Except.ok none => scrapeFresh env url rules useCache key
  else scrapeFresh env url rules useCache key

/-- Embeds `ScraperService.scrape`: the try-block with its
`except Exception as e` handler turning any raised failure into
`ScrapedData(url=url, success=False, error=str(e))`. -/
def scrape {H : Type} (env : ScrapeEnv H) (url : String)
    (rules : List (String × ExtractionRule)) (useCache : Bool) : ScrapedData :=
  match scrapeInner env url rules useCache with
  | Except.ok r => r
  | Except.error e => { url := url, success := false, error := some e }

end ScrapeM

/-
Theorems. One theorem settles each claim; corrected claims additionally
carry a closed counterexample against the claim as stated.
-/

open RouterM ChatM EmbM ScrapeM

/-
Concrete instances used by witnesses and counterexamples.
-/

/-- Concrete router configuration whose two providers raise on every
call (a non-retryable error and an always-timing-out one). -/
def failingRouterCfg : RouterCfg :=
  { primary := { name := "gemini", behave := fun _ _ => Outcome.exn ExnKind.other },
    secondary := some { name := "groq", behave := fun _ _ => Outcome.exn ExnKind.timeout },
    redisPresent := true, up := true }

/-- Router configuration with two healthy providers. -/
def skipPrimaryCfg : RouterCfg :=
  { primary := { name := "gemini", behave := fun _ _ => Outcome.ok "Respuesta de gemini" },
    secondary := some { name := "groq", behave := fun _ _ => Outcome.ok "Response from groq" },
    redisPresent := true, up := true }

/-- Redis content whose primary breaker circuit is OPEN and freshly
opened (cooldown not elapsed at time 0). -/
def skipPrimaryRedis : RouterRedis :=
  { primaryB := ⟨none, some (CircuitState.OPEN, 600), some (0, 600)⟩ }

/-- Router configuration whose primary times out on every call
(transient, retried) while the secondary succeeds. -/
def retryCexCfg : RouterCfg :=
  { primary := { name := "gemini", behave := fun _ _ => Outcome.exn ExnKind.conn },
    secondary := some { name := "groq", behave := fun _ _ => Outcome.ok "Response from groq" },
    redisPresent := true, up := true }

/-- Chat collaborators whose conversation store raises on every
`save_turn`; retrieval and history succeed and the primary provider
answers. -/
def failingSaveDeps : ChatDeps :=
  { searchSimilar := fun _ _ _ => Except.ok [],
    store := { getHistory := fun _ _ => Except.ok [],
               saveTurn := fun _ _ _ => Except.error "db down" },
    router := { primary := { name := "gemini", behave := fun _ _ => Outcome.ok "Hola" },
                secondary := none, redisPresent := false, up := true },
    freshId := "cid-1" }

/-- The same collaborators with a succeeding `save_turn`. -/
def okSaveDeps : ChatDeps :=
  { failingSaveDeps with
      store := { getHistory := fun _ _ => Except.ok [],
                 saveTurn := fun _ _ _ => Except.ok () } }

/-- Environment whose page fetch raises (network down) and whose cache
is disabled. -/
def downScrapeEnv : ScrapeEnv Unit :=
  { cacheEnabled := false, cacheTTL := 60, now := 0,
    rulesHash := fun _ => "h", cacheGet := fun _ => Except.ok none,
    cacheSet := fun _ _ _ => Except.ok (), fetchPage := fun _ => Except.error "net down",
    parse := fun _ => Except.ok (), docTitle := fun _ => none,
    extract := fun _ _ => Except.ok (ExtractVal.scalar none) }

/-- C3: with the backing key-value store raising on every operation
(`up = false`), `get_state` returns CLOSED and `can_attempt` returns
true, both leaving the store untouched, and the router's attempt-list
composition keeps every configured provider, exactly as with all
breakers CLOSED (fail-open). -/
theorem breaker_store_down_fails_open (s : RedisState) (now : Nat) :
    getState false s now = (CircuitState.CLOSED, s) ∧
    canAttempt false s now = (true, s) ∧
    ∀ (cfg : RouterCfg) (st : RouterRedis),
      composeAttempts { cfg with up := false } now st =
        (Layer.primary ::
          (match cfg.secondary with
           | some _ => [Layer.secondary]
           | none => []), st) := by
  refine ⟨rfl, rfl, ?_⟩
  intro cfg st
  cases hsec : cfg.secondary <;>
    simp [composeAttempts, canAttempt, getState, getStateE, hsec]

/-- Helper: `record_failure` on a reachable store either trips the
circuit (writing all three keys) or only bumps the counter. -/
theorem recordFailure_spec (s : RedisState) (now : Nat) :
    recordFailure true s now =
      if FAILURE_THRESHOLD ≤ failCount s now + 1 then
        { failures := some (failCount s now + 1, now + FAILURE_WINDOW),
          circuit := some (CircuitState.OPEN, now + STATE_TTL),
          openedAt := some (now, now + STATE_TTL) }
      else
        { s with failures := some (failCount s now + 1, now + FAILURE_WINDOW) } := by
  cases h : getVal s.failures now <;>
    simp [recordFailure, setState, failCount, h]

/-- Helper: a stored CLOSED (or absent) state reads back CLOSED with no
write. -/
theorem getState_stored_closed (s : RedisState) (now : Nat)
    (h : getVal s.circuit now = none ∨ getVal s.circuit now = some CircuitState.CLOSED) :
    getState true s now = (CircuitState.CLOSED, s) := by
  rcases h with h | h <;> simp [getState, getStateE, h]

/-- Helper: a stored HALF_OPEN state reads back HALF_OPEN with no
write. -/
theorem getState_stored_half (s : RedisState) (now : Nat)
    (h : getVal s.circuit now = some CircuitState.HALF_OPEN) :
    getState true s now = (CircuitState.HALF_OPEN, s) := by
  simp [getState, getStateE, h]

/-- Helper: a circuit opened at the current instant reads back OPEN
(the cooldown has not elapsed). -/
theorem getState_fresh_open (f : Option (Nat × Nat)) (now : Nat) :
    (getState true
      { failures := f, circuit := some (CircuitState.OPEN, now + STATE_TTL),
        openedAt := some (now, now + STATE_TTL) } now).fst = CircuitState.OPEN := by
  simp [getState, getStateE, getVal, STATE_TTL, OPEN_DURATION]

/-- C2 (amended): the breaker realizes the windowed state machine of
the source.  (1) `record_failure` increments the windowed counter and
refreshes its TTL; (2) from a stored CLOSED (or absent) state the
circuit trips OPEN — recording opened-at — exactly when the incremented
counter reaches the threshold; (3) while OPEN, `get_state` lazily moves
to HALF_OPEN once `now − opened_at ≥ D`; (4) `can_attempt` is false
exactly when `get_state` is OPEN; (5) in HALF_OPEN, `record_success`
moves to CLOSED and resets the counter; (6) in HALF_OPEN,
`record_failure` re-opens the circuit (with a fresh opened-at) exactly
when the incremented windowed counter reaches the threshold — so a
probe failure after the failure window has expired leaves the breaker
in HALF_OPEN rather than re-opening it. -/
theorem circuit_breaker_state_machine (s : RedisState) (now : Nat) :
    ((recordFailure true s now).failures
        = some (failCount s now + 1, now + FAILURE_WINDOW)) ∧
    ((getVal s.circuit now = none ∨ getVal s.circuit now = some CircuitState.CLOSED) →
      (getState true (recordFailure true s now) now).fst =
        (if FAILURE_THRESHOLD ≤ failCount s now + 1 then CircuitState.OPEN
         else CircuitState.CLOSED) ∧
      (FAILURE_THRESHOLD ≤ failCount s now + 1 →
        (recordFailure true s now).openedAt = some (now, now + STATE_TTL))) ∧
    (∀ t, getVal s.circuit now = some CircuitState.OPEN →
      getVal s.openedAt now = some t → OPEN_DURATION ≤ now - t →
      getState true s now =
        (CircuitState.HALF_OPEN, setState true s CircuitState.HALF_OPEN now)) ∧
    ((canAttempt true s now).fst = false ↔
      (getState true s now).fst = CircuitState.OPEN) ∧
    (getVal s.circuit now = some CircuitState.HALF_OPEN →
      (recordSuccess true s now).failures = none ∧
      (getState true (recordSuccess true s now) now).fst = CircuitState.CLOSED) ∧
    (getVal s.circuit now = some CircuitState.HALF_OPEN →
      (getState true (recordFailure true s now) now).fst =
        (if FAILURE_THRESHOLD ≤ failCount s now + 1 then CircuitState.OPEN
         else CircuitState.HALF_OPEN) ∧
      (FAILURE_THRESHOLD ≤ failCount s now + 1 →
        (recordFailure true s now).openedAt = some (now, now + STATE_TTL))) := by
  refine ⟨?_, ?_, ?_, ?_, ?_, ?_⟩
  · rw [recordFailure_spec]; split <;> rfl
  · intro hc
    by_cases hth : FAILURE_THRESHOLD ≤ failCount s now + 1
    · refine ⟨?_, fun _ => ?_⟩
      · rw [recordFailure_spec, if_pos hth, if_pos hth, getState_fresh_open]
      · rw [recordFailure_spec, if_pos hth]
    · refine ⟨?_, fun h => absurd h hth⟩
      rw [recordFailure_spec, if_neg hth, if_neg hth]
      have hsame :
          getVal ({ s with failures := some (failCount s now + 1, now + FAILURE_WINDOW) }
            : RedisState).circuit now = getVal s.circuit now := rfl
      rw [getState_stored_closed _ now (by rw [hsame]; exact hc)]
  · intro t hc ho hd
    simp [getState, getStateE, hc, ho, hd]
  · rcases hg : (getState true s now).fst with _ | _ | _ <;>
      simp [canAttempt, hg]
  · intro hc
    have hg : getState true s now = (CircuitState.HALF_OPEN, s) :=
      getState_stored_half s now hc
    have hrs : recordSuccess true s now =
        { failures := none, circuit := some (CircuitState.CLOSED, now + STATE_TTL),
          openedAt := s.openedAt } := by
      simp [recordSuccess, hg, setState]
    constructor
    · rw [hrs]
    · rw [hrs, getState_stored_closed _ now (Or.inr (by simp [getVal, STATE_TTL]))]
  · intro hc
    by_cases hth : FAILURE_THRESHOLD ≤ failCount s now + 1
    · refine ⟨?_, fun _ => ?_⟩
      · rw [recordFailure_spec, if_pos hth, if_pos hth, getState_fresh_open]
      · rw [recordFailure_spec, if_pos hth]
    · refine ⟨?_, fun h => absurd h hth⟩
      rw [recordFailure_spec, if_neg hth, if_neg hth]
      have hsame :
          getVal ({ s with failures := some (failCount s now + 1, now + FAILURE_WINDOW) }
            : RedisState).circuit now = getVal s.circuit now := rfl
      rw [getState_stored_half _ now (by rw [hsame]; exact hc)]

/-- Witness for the breaker state machine: a closed breaker with four
windowed failures trips on the fifth; an open circuit reads HALF_OPEN
after the cooldown; a HALF_OPEN success resets the counter; a HALF_OPEN
failure with the window still populated re-opens. -/
theorem circuit_breaker_state_machine_witness :
    (getState true (recordFailure true { failures := some (4, 10) } 5) 5).fst
        = CircuitState.OPEN ∧
    (getState true ⟨none, some (CircuitState.OPEN, 1000), some (0, 1000)⟩ 200).fst
        = CircuitState.HALF_OPEN ∧
    (recordSuccess true ⟨some (3, 1000), some (CircuitState.HALF_OPEN, 1000), none⟩
        10).failures = none ∧
    (getState true (recordFailure true
        ⟨some (4, 1000), some (CircuitState.HALF_OPEN, 1000), none⟩ 10) 10).fst
        = CircuitState.OPEN := by
  refine ⟨?_, ?_, ?_, ?_⟩
  · have h := (circuit_breaker_state_machine { failures := some (4, 10) } 5).2.1
      (Or.inl rfl)
    exact h.1.trans (by decide)
  · have h := (circuit_breaker_state_machine
      ⟨none, some (CircuitState.OPEN, 1000), some (0, 1000)⟩ 200).2.2.1
      0 (by decide) (by decide) (by decide)
    exact congrArg Prod.fst h
  · have h := (circuit_breaker_state_machine
      ⟨some (3, 1000), some (CircuitState.HALF_OPEN, 1000), none⟩ 10).2.2.2.2.1
      (by decide)
    exact h.1
  · have h := (circuit_breaker_state_machine
      ⟨some (4, 1000), some (CircuitState.HALF_OPEN, 1000), none⟩ 10).2.2.2.2.2
      (by decide)
    exact h.1.trans (by decide)

/-- Helper: when every entry of the attempt list fails, the provider
loop returns no response. -/
theorem tryProviders_all_fail (cfg : RouterCfg) (prompt : String)
    (convId : Option String) (now : Nat) :
    ∀ (L : List Layer) (st : RouterRedis),
      (∀ l ∈ L, ∃ k, callProvider (providerOf cfg l).behave prompt = Except.error k) →
      (tryProviders cfg prompt convId now L st).fst = none := by
  intro L
  induction L with
  | nil => intro st _; rfl
  | cons l rest ih =>
    intro st h
    obtain ⟨k, hk⟩ := h l (List.mem_cons_self _ _)
    simp only [tryProviders, hk]
    exact ih _ (fun x hx => h x (List.mem_cons_of_mem _ hx))

/-- C1: `LLMRouter.generate` is total by construction (the embedding
returns a plain response for every input), and whenever every entry of
the composed attempt list fails — in particular when every configured
provider has failed or been skipped by its breaker — it returns the
static degraded response with `provider = "static_fallback"` and
`fallback_used = true`; no failure propagates to the caller. -/
theorem router_generate_terminal_static (cfg : RouterCfg) (prompt : String)
    (convId : Option String) (now : Nat) (st : RouterRedis)
    (h : ∀ l ∈ (composeAttempts cfg now st).fst,
      ∃ k, callProvider (providerOf cfg l).behave prompt = Except.error k) :
    (generate cfg prompt convId now st).fst.provider = "static_fallback" ∧
    (generate cfg prompt convId now st).fst.fallbackUsed = true ∧
    (generate cfg prompt convId now st).fst.text = staticFallbackText := by
  have hnone := tryProviders_all_fail cfg prompt convId now
    (composeAttempts cfg now st).fst (composeAttempts cfg now st).snd h
  rcases hq : tryProviders cfg prompt convId now
      (composeAttempts cfg now st).fst (composeAttempts cfg now st).snd with ⟨ropt, st2⟩
  rw [hq] at hnone
  simp only at hnone
  subst hnone
  simp [generate, hq]

/-- Witness: with both providers raising on every call, the router
returns the static fallback response. -/
theorem router_generate_terminal_static_witness :
    (generate failingRouterCfg "hola" none 0 {}).fst.provider = "static_fallback" ∧
    (generate failingRouterCfg "hola" none 0 {}).fst.fallbackUsed = true := by
  have h := router_generate_terminal_static failingRouterCfg "hola" none 0 {} ?_
  · exact ⟨h.1, h.2.1⟩
  · intro l hl
    have hfst : (composeAttempts failingRouterCfg 0 {}).fst =
        [Layer.primary, Layer.secondary] := rfl
    rw [hfst] at hl
    simp only [List.mem_cons, List.mem_singleton] at hl
    rcases hl with rfl | rfl | hl
    · exact ⟨ExnKind.other, rfl⟩
    · exact ⟨ExnKind.timeout, rfl⟩
    · exact absurd hl (List.not_mem_nil l)

/-- Helper: every response produced by the provider loop carries
`fallback_used = (layer != "primary")`. -/
theorem tryProviders_flag (cfg : RouterCfg) (prompt : String)
    (convId : Option String) (now : Nat) :
    ∀ (L : List Layer) (st : RouterRedis) (r : RouterResponse) (st2 : RouterRedis),
      tryProviders cfg prompt convId now L st = (some r, st2) →
      (r.fallbackUsed = true ↔ r.layer ≠ Layer.primary) := by
  intro L
  induction L with
  | nil => intro st r st2 h; simp [tryProviders] at h
  | cons l rest ih =>
    intro st r st2 h
    cases hc : callProvider (providerOf cfg l).behave prompt with
    | ok t =>
      simp only [tryProviders, hc, Prod.mk.injEq, Option.some.injEq] at h
      rw [← h.1]
      simp
    | error k =>
      simp only [tryProviders, hc] at h
      exact ih _ _ _ h

/-- C4 counterexample to the claim as stated: with the primary omitted
by its OPEN breaker, the secondary is the first (and only) attempt
entry, yet its successful response carries `fallback_used = true`,
where the claim requires `false` for the first attempt entry. -/
theorem router_fallback_flag_counterexample :
    (composeAttempts skipPrimaryCfg 0 skipPrimaryRedis).fst = [Layer.secondary] ∧
    (generate skipPrimaryCfg "p" none 0 skipPrimaryRedis).fst.provider = "groq" ∧
    (generate skipPrimaryCfg "p" none 0 skipPrimaryRedis).fst.fallbackUsed = true := by
  exact ⟨rfl, rfl, rfl⟩

/-- C4 (amended): a successful response's `fallback_used` is true iff
the serving entry is not the primary layer — the flag marks "not the
primary provider", not "not the first entry of the composed attempt
list"; in particular, when the primary is omitted because its breaker
denies `can_attempt()` and the secondary (then the first attempt entry)
succeeds, `fallback_used` is true. -/
theorem router_fallback_iff_not_primary (cfg : RouterCfg) (prompt : String)
    (convId : Option String) (now : Nat) (st : RouterRedis) :
    ((generate cfg prompt convId now st).fst.fallbackUsed = true ↔
      (generate cfg prompt convId now st).fst.layer ≠ Layer.primary) ∧
    (∀ t, (composeAttempts cfg now st).fst = [Layer.secondary] →
      callProvider (providerOf cfg Layer.secondary).behave prompt = Except.ok t →
      (generate cfg prompt convId now st).fst.fallbackUsed = true ∧
      (generate cfg prompt convId now st).fst.provider
        = (providerOf cfg Layer.secondary).name) := by
  constructor
  · rcases hq : tryProviders cfg prompt convId now
        (composeAttempts cfg now st).fst (composeAttempts cfg now st).snd with ⟨ropt, st2⟩
    cases ropt with
    | none => simp [generate, hq]
    | some r =>
      have hflag := tryProviders_flag cfg prompt convId now _ _ _ _ hq
      simp [generate, hq, hflag]
  · intro t hA hc
    simp [generate, hA, tryProviders, hc]

/-- Witness: in the open-primary-breaker scenario the amended flag law
yields `fallback_used = true` for the successful secondary. -/
theorem router_fallback_iff_not_primary_witness :
    (generate skipPrimaryCfg "p" none 0 skipPrimaryRedis).fst.fallbackUsed = true ∧
    (generate skipPrimaryCfg "p" none 0 skipPrimaryRedis).fst.provider = "groq" := by
  have h := (router_fallback_iff_not_primary skipPrimaryCfg "p" none 0 skipPrimaryRedis).2
    "Response from groq" rfl rfl
  exact ⟨h.1, h.2⟩

/-- C5 counterexample to the claim as stated: primary raising a
transient error on every call and secondary succeeding, the router does
return the secondary with `fallback_used = true` — but the primary
breaker's failure counter ends at 1 (one `record_failure` per exhausted
provider), not at the retry count 3. -/
theorem router_retry_counter_counterexample :
    (generate retryCexCfg "p" none 0 {}).fst.provider = "groq" ∧
    (generate retryCexCfg "p" none 0 {}).fst.fallbackUsed = true ∧
    (generate retryCexCfg "p" none 0 {}).snd.primaryB.failures = some (1, 300) ∧
    (generate retryCexCfg "p" none 0 {}).snd.primaryB.failures ≠ some (3, 300) := by
  exact ⟨rfl, rfl, rfl, by decide⟩

/-- C5 (amended): when the primary raises transient errors on every
call and the secondary succeeds, the router returns the secondary's
text with `fallback_used = true`, and the primary breaker's windowed
failure counter is incremented by exactly one (the single
`record_failure` issued after the retry wrapper exhausts its three
attempts), not by the retry count. -/
theorem router_primary_transient_secondary_ok (pName sName prompt txt : String)
    (convId : Option String) (now : Nat) (pReqs sReqs : Nat) (pLat sLat : List Nat) :
    (generate
      { primary := { name := pName, behave := fun _ _ => Outcome.exn ExnKind.conn },
        secondary := some { name := sName, behave := fun _ _ => Outcome.ok txt },
        redisPresent := true, up := true }
      prompt convId now ⟨{}, {}, pReqs, sReqs, pLat, sLat⟩).fst.provider = sName ∧
    (generate
      { primary := { name := pName, behave := fun _ _ => Outcome.exn ExnKind.conn },
        secondary := some { name := sName, behave := fun _ _ => Outcome.ok txt },
        redisPresent := true, up := true }
      prompt convId now ⟨{}, {}, pReqs, sReqs, pLat, sLat⟩).fst.fallbackUsed = true ∧
    (generate
      { primary := { name := pName, behave := fun _ _ => Outcome.exn ExnKind.conn },
        secondary := some { name := sName, behave := fun _ _ => Outcome.ok txt },
        redisPresent := true, up := true }
      prompt convId now ⟨{}, {}, pReqs, sReqs, pLat, sLat⟩).fst.text = txt ∧
    (generate
      { primary := { name := pName, behave := fun _ _ => Outcome.exn ExnKind.conn },
        secondary := some { name := sName, behave := fun _ _ => Outcome.ok txt },
        redisPresent := true, up := true }
      prompt convId now ⟨{}, {}, pReqs, sReqs, pLat, sLat⟩).snd.primaryB.failures
      = some (0 + 1, now + FAILURE_WINDOW) := by
  exact ⟨rfl, rfl, rfl, rfl⟩

/-- C6: evaluation of the durable store at the failing input.  For a
conversation holding two complete turns (four messages in ascending
`created_at` order) and `limit = 1`, `PostgresConversationStore.get_history`
returns the OLDEST turn `("q0", "a0")` — its SQL takes the first
`limit*2` messages ascending — while the most recent complete turn is
`("q1", "a1")`: the code contradicts the claim (and its own test's
expectation of the last turns). -/
theorem pg_get_history_returns_oldest :
    pgGetHistory
      [⟨Role.user, "q0", 0⟩, ⟨Role.assistant, "a0", 1⟩,
       ⟨Role.user, "q1", 2⟩, ⟨Role.assistant, "a1", 3⟩] 1
      = [⟨"q0", "a0", 0⟩] ∧
    (groupTurns
      [⟨Role.user, "q0", 0⟩, ⟨Role.assistant, "a0", 1⟩,
       ⟨Role.user, "q1", 2⟩, ⟨Role.assistant, "a1", 3⟩]).getLast?
      = some ⟨"q1", "a1", 2⟩ ∧
    (⟨"q0", "a0", 0⟩ : Turn) ≠ ⟨"q1", "a1", 2⟩ := by
  refine ⟨rfl, rfl, by decide⟩

/-- C7 counterexample to the claim as stated: with `save_turn` raising,
`generate_response` propagates the store failure to its caller — the
assembled answer is not returned. -/
theorem chat_save_failure_counterexample :
    (generateResponse failingSaveDeps "Hola?" none 5 0 {}).fst
      = Except.error "db down" := rfl

/-- C7 (amended): `generate_response` calls `save_turn` without any
handler, so when retrieval and history succeed but every `save_turn`
raises, the store error propagates to the caller and no response is
returned; when `save_turn` succeeds, the response with the assembled
answer, sources and conversation id is returned. -/
theorem chat_save_failure_blocks_response (deps : ChatDeps)
    (question cid : String) (maxCtx now : Nat) (st : RouterRedis)
    (docs : List Doc) (hist : List Turn) (e : String)
    (h1 : deps.searchSimilar question maxCtx (1 / 2 : Rat) = Except.ok docs)
    (h2 : deps.store.getHistory cid 10 = Except.ok hist) :
    ((∀ c q a, deps.store.saveTurn c q a = Except.error e) →
      (generateResponse deps question (some cid) maxCtx now st).fst
        = Except.error e) ∧
    ((∀ c q a, deps.store.saveTurn c q a = Except.ok ()) →
      ∃ resp, (generateResponse deps question (some cid) maxCtx now st).fst
          = Except.ok resp ∧
        resp.conversationId = cid ∧ resp.sources = docs.map mkSource) := by
  constructor
  · intro hs
    simp only [generateResponse, h1, h2, hs]
  · intro hs
    simp only [generateResponse, h1, h2, hs]
    exact ⟨_, rfl, rfl, rfl⟩

/-- Witness: the persistence-failure law applied to concrete
collaborators, on both the raising store and the succeeding store. -/
theorem chat_save_failure_blocks_response_witness :
    (generateResponse failingSaveDeps "Hola?" (some "c-7") 5 0 {}).fst
      = Except.error "db down" ∧
    ∃ resp, (generateResponse okSaveDeps "Hola?" (some "c-7") 5 0 {}).fst
        = Except.ok resp ∧
      resp.conversationId = "c-7" ∧ resp.sources = ([] : List Doc).map mkSource := by
  constructor
  · exact (chat_save_failure_blocks_response failingSaveDeps "Hola?" "c-7" 5 0 {}
      [] [] "db down" rfl rfl).1 (fun _ _ _ => rfl)
  · exact (chat_save_failure_blocks_response okSaveDeps "Hola?" "c-7" 5 0 {}
      [] [] "db down" rfl rfl).2 (fun _ _ _ => rfl)

/-- Helper: the sliding-window loop never exceeds its remaining budget:
the total estimate of its output is bounded by the estimate already in
the accumulator plus the (non-negative part of the) remaining budget. -/
theorem buildLoop_sum_le (l : List Turn) :
    ∀ (rem : Int) (acc : List String),
      ((buildLoop l rem acc).map (fun s => (estimateTokens s : Int))).sum
        ≤ (acc.map (fun s => (estimateTokens s : Int))).sum + max rem 0 := by
  induction l with
  | nil =>
    intro rem acc
    exact le_add_of_nonneg_right (le_max_right rem 0)
  | cons t ts ih =>
    intro rem acc
    by_cases hfit : rem < (estimateTokens (turnText t) : Int)
    · simp only [buildLoop, if_pos hfit]
      exact le_add_of_nonneg_right (le_max_right _ _)
    · simp only [buildLoop, if_neg hfit]
      refine (ih _ _).trans ?_
      simp only [List.map_cons, List.sum_cons]
      have htk : (estimateTokens (turnText t) : Int) ≤ rem := not_lt.mp hfit
      have h0 : (0 : Int) ≤ (estimateTokens (turnText t) : Int) := Int.natCast_nonneg _
      rw [max_eq_left (by omega), max_eq_left (by omega)]
      omega

/-- Helper: the loop's output is the texts of a prefix of its input
(the newest turns, since the input is the reversed history) prepended
to the accumulator. -/
theorem buildLoop_shape (l : List Turn) :
    ∀ (rem : Int) (acc : List String), ∃ k,
      buildLoop l rem acc = ((l.take k).map turnText).reverse ++ acc := by
  induction l with
  | nil => intro rem acc; exact ⟨0, by simp [buildLoop]⟩
  | cons t ts ih =>
    intro rem acc
    by_cases hfit : rem < (estimateTokens (turnText t) : Int)
    · exact ⟨0, by simp [buildLoop, if_pos hfit]⟩
    · obtain ⟨k, hk⟩ := ih (rem - (estimateTokens (turnText t) : Int)) (turnText t :: acc)
      refine ⟨k + 1, ?_⟩
      simp only [buildLoop, if_neg hfit, hk]
      simp [List.take_succ_cons, List.reverse_cons, List.append_assoc]

/-- C8 (amended): the history window respects its budget — the header
estimate plus the cumulative per-turn estimates of the included turns
stays within `max_tokens` — and the included turns are the texts of
the `k` newest turns for some `k`; and whenever the MOST RECENT turn
itself fits the budget left after the header, it is included (the loop
breaks at the first non-fitting turn, so an older turn that would fit
is NOT otherwise guaranteed inclusion). -/
theorem build_history_window (history : List Turn) (maxTokens : Nat)
    (hb : estimateTokens historyHeader ≤ maxTokens) :
    estimateTokens historyHeader + sumTokens (includedTurns history maxTokens)
        ≤ maxTokens ∧
    (∃ k, includedTurns history maxTokens
        = ((history.reverse.take k).map turnText).reverse) ∧
    (∀ (hs : List Turn) (t : Turn), history = hs ++ [t] →
      estimateTokens historyHeader + estimateTokens (turnText t) ≤ maxTokens →
      ∃ pre, includedTurns history maxTokens = pre ++ [turnText t]) := by
  refine ⟨?_, ?_, ?_⟩
  · have h : ((includedTurns history maxTokens).map
        (fun s => (estimateTokens s : Int))).sum
          ≤ (([] : List String).map (fun s => (estimateTokens s : Int))).sum
            + max ((maxTokens : Int) - (estimateTokens historyHeader : Int)) 0 :=
      buildLoop_sum_le history.reverse _ []
    have hcast :
        ((includedTurns history maxTokens).map (fun s => (estimateTokens s : Int))).sum
          = (sumTokens (includedTurns history maxTokens) : Int) := by
      rw [sumTokens, Nat.cast_list_sum, List.map_map]
      rfl
    rw [hcast, max_eq_left (by omega)] at h
    simp only [List.map_nil, List.sum_nil, zero_add] at h
    omega
  · obtain ⟨k, hk⟩ := buildLoop_shape history.reverse
      ((maxTokens : Int) - (estimateTokens historyHeader : Int)) []
    exact ⟨k, by simpa [includedTurns] using hk⟩
  · intro hs t hform hfitNew
    subst hform
    have hrev : (hs ++ [t]).reverse = t :: hs.reverse := by simp
    have hle : ¬(((maxTokens : Int) - (estimateTokens historyHeader : Int))
        < (estimateTokens (turnText t) : Int)) := by
      omega
    obtain ⟨k, hk⟩ := buildLoop_shape hs.reverse
      (((maxTokens : Int) - (estimateTokens historyHeader : Int))
        - (estimateTokens (turnText t) : Int)) [turnText t]
    refine ⟨((hs.reverse.take k).map turnText).reverse, ?_⟩
    rw [includedTurns, hrev]
    simp only [buildLoop, if_neg hle]
    exact hk

set_option maxRecDepth 100000 in
/-- Witness: a one-turn history within the default budget satisfies the
window law, and its (most recent) turn is included. -/
theorem build_history_window_witness :
    estimateTokens historyHeader + sumTokens (includedTurns [⟨"a", "b", 0⟩] 2048)
        ≤ 2048 ∧
    ∃ pre, includedTurns [⟨"a", "b", 0⟩] 2048 = pre ++ [turnText ⟨"a", "b", 0⟩] := by
  have h := build_history_window [⟨"a", "b", 0⟩] 2048 (by decide)
  exact ⟨h.1, h.2.2 [] ⟨"a", "b", 0⟩ rfl (by decide)⟩

set_option maxRecDepth 100000 in
/-- C8 counterexample to the claim as stated: with a configured budget
of 64 tokens, a history whose older turn fits the budget but whose most
recent turn does not yields an empty window — the loop breaks at the
newest turn, so the most recent FITTING turn (the older one) is not
included, contradicting the claim. -/
theorem build_history_skips_fitting_turn_counterexample :
    estimateTokens historyHeader
        + estimateTokens (turnText ⟨"a", "b", 0⟩) ≤ 64 ∧
    includedTurns [⟨"a", "b", 0⟩, ⟨String.mk (List.replicate 300 'x'), "x", 1⟩] 64
        = [] ∧
    buildHistory [⟨"a", "b", 0⟩, ⟨String.mk (List.replicate 300 'x'), "x", 1⟩] 64
        = historyHeader := by
  refine ⟨by decide, by decide, ?_⟩
  show historyHeader ++ String.join [] = historyHeader
  exact String.append_empty _

/-- Helper: a successful `save` stored exactly the given vector, whose
length equals the configured dimension. -/
theorem repoSave_ok_spec {α : Type} (dim : Nat) (db : EmbDB α) (content : String)
    (vec : List α) (md : List (String × String)) (id : Nat) (db2 : EmbDB α)
    (h : repoSave dim db content vec md = Except.ok (id, db2)) :
    vec.length = dim ∧
    db2.rows = db.rows ++ [{ id := id, content := content, vec := vec, metadata := md }] := by
  by_cases hd : vec.length = dim
  · simp only [repoSave, dbInsertEmbedding, if_pos hd, Except.ok.injEq,
      Prod.mk.injEq] at h
    obtain ⟨hid, hdb⟩ := h
    subst hid
    exact ⟨hd, by rw [← hdb]⟩
  · simp [repoSave, dbInsertEmbedding, hd] at h

/-- C9: the persisted vector's length always equals the configured
dimension — a successful `save` stored the vector and it has length
`dim`; a mismatched vector makes `save` raise with nothing stored; and
every successful `ingest` appended a vector of length `dim`. -/
theorem embedding_dimension_enforced {α : Type} (dim : Nat) (db : EmbDB α)
    (content : String) (vec : List α) (md : List (String × String)) :
    (∀ id db2, repoSave dim db content vec md = Except.ok (id, db2) →
      vec.length = dim ∧
      db2.rows = db.rows ++ [{ id := id, content := content, vec := vec, metadata := md }]) ∧
    (vec.length ≠ dim →
      repoSave dim db content vec md = Except.error "vector dimension mismatch") ∧
    (∀ (embedOf : String → Except String (List α)) id db2,
      serviceIngest dim embedOf db content md = Except.ok (id, db2) →
      ∃ v, embedOf content = Except.ok v ∧ v.length = dim ∧
        db2.rows = db.rows ++ [{ id := id, content := content, vec := v, metadata := md }]) := by
  refine ⟨?_, ?_, ?_⟩
  · intro id db2 h
    exact repoSave_ok_spec dim db content vec md id db2 h
  · intro hd
    simp [repoSave, dbInsertEmbedding, hd]
  · intro embedOf id db2 h
    cases he : embedOf content with
    | error e => simp [serviceIngest, he] at h
    | ok v =>
      simp only [serviceIngest, he] at h
      obtain ⟨h1, h2⟩ := repoSave_ok_spec dim db content v md id db2 h
      exact ⟨v, rfl, h1, h2⟩

/-- Witness: a three-element vector saves under dimension 3, storing
the row; a two-element vector is rejected with nothing stored. -/
theorem embedding_dimension_enforced_witness :
    (([1, 2, 3] : List Int).length = 3 ∧
      (⟨[⟨1, "doc", [1, 2, 3], []⟩], 2⟩ : EmbDB Int).rows
        = ({} : EmbDB Int).rows ++ [⟨1, "doc", [1, 2, 3], []⟩]) ∧
    repoSave 3 ({} : EmbDB Int) "doc" [1, 2] []
      = Except.error "vector dimension mismatch" := by
  constructor
  · exact (embedding_dimension_enforced 3 {} "doc" [1, 2, 3] []).1 1
      ⟨[⟨1, "doc", [1, 2, 3], []⟩], 2⟩ rfl
  · exact (embedding_dimension_enforced 3 ({} : EmbDB Int) "doc" [1, 2] []).2.1
      (by decide)

/-- Helper: a completed fresh scrape reports success. -/
theorem scrapeFresh_ok_success {H : Type} (env : ScrapeEnv H) (url : String)
    (rules : List (String × ExtractionRule)) (useCache : Bool) (key : String)
    (r : ScrapedData) (h : scrapeFresh env url rules useCache key = Except.ok r) :
    r.success = true := by
  simp only [scrapeFresh] at h
  cases hf : env.fetchPage url with
  | error e => simp only [hf] at h; exact Except.noConfusion h
  | ok html =>
    simp only [hf] at h
    cases hp : env.parse html with
    | error e => simp only [hp] at h; exact Except.noConfusion h
    | ok doc =>
      simp only [hp] at h
      cases hx : extractAll env doc rules with
      | error e => simp only [hx] at h; exact Except.noConfusion h
      | ok extracted =>
        simp only [hx] at h
        cases hs : (if useCache && env.cacheEnabled then
            env.cacheSet key (env.docTitle doc, extracted) env.cacheTTL
          else Except.ok ()) with
        | error e => simp only [hs] at h; exact Except.noConfusion h
        | ok u =>
          simp only [hs] at h
          injection h with h
          rw [← h]

/-- Helper: a scrape whose try-block completes reports success. -/
theorem scrapeInner_ok_success {H : Type} (env : ScrapeEnv H) (url : String)
    (rules : List (String × ExtractionRule)) (useCache : Bool) (r : ScrapedData)
    (h : scrapeInner env url rules useCache = Except.ok r) : r.success = true := by
  simp only [scrapeInner] at h
  split at h
  · cases hg : env.cacheGet ("scrape:" ++ url ++ ":" ++ env.rulesHash rules) with
    | error e => simp only [hg] at h; exact Except.noConfusion h
    | ok hit =>
      simp only [hg] at h
      cases hit with
      | none => exact scrapeFresh_ok_success env url rules useCache _ r h
      | some p =>
        rcases p with ⟨title, data⟩
        injection h with h
        rw [← h]
  · exact scrapeFresh_ok_success env url rules useCache _ r h

/-- C10: the scrape pipeline never raises — the embedding is a total
function whose failure results all come from the terminal handler: a
result with `success = false` always has the error field set and no
extracted data, and whenever any step of the try-block raises, the
result is exactly `ScrapedData(url, success=False, error=str(e))`. -/
theorem scrape_never_raises {H : Type} (env : ScrapeEnv H) (url : String)
    (rules : List (String × ExtractionRule)) (useCache : Bool) :
    ((scrape env url rules useCache).success = false →
      (scrape env url rules useCache).error.isSome = true ∧
      (scrape env url rules useCache).data = none) ∧
    (∀ e, scrapeInner env url rules useCache = Except.error e →
      scrape env url rules useCache
        = { url := url, success := false, error := some e }) := by
  constructor
  · intro hfail
    cases hi : scrapeInner env url rules useCache with
    | ok r =>
      have := scrapeInner_ok_success env url rules useCache r hi
      rw [scrape, hi] at hfail
      simp [this] at hfail
    | error e =>
      rw [scrape, hi]
      exact ⟨rfl, rfl⟩
  · intro e hi
    rw [scrape, hi]

/-- Witness: with the browser fetch raising, `scrape` returns a failure
result with the error set and no data. -/
theorem scrape_never_raises_witness :
    (scrape downScrapeEnv "http://x" [] true).success = false ∧
    (scrape downScrapeEnv "http://x" [] true).error = some "net down" ∧
    (scrape downScrapeEnv "http://x" [] true).data = none := by
  have h := scrape_never_raises downScrapeEnv "http://x" [] true
  have h2 := h.2 "net down" rfl
  refine ⟨by rw [h2], by rw [h2], ?_⟩
  exact (h.1 (by rw [h2])).2

/-- C2 counterexample to the claim as stated: after five failures at
time 0 the circuit opens; at time 120 `get_state` lazily reports
HALF_OPEN; but at time 301 — the failure window having expired — a
probe `record_failure` leaves the breaker in HALF_OPEN instead of
transitioning it back to OPEN. -/
theorem circuit_breaker_half_open_fail_counterexample :
    let s5 := recordFailure true (recordFailure true (recordFailure true
      (recordFailure true (recordFailure true {} 0) 0) 0) 0) 0
    let s6 := (getState true s5 120).snd
    (getState true s5 120).fst = CircuitState.HALF_OPEN ∧
    (getState true (recordFailure true s6 301) 301).fst = CircuitState.HALF_OPEN ∧
    (getState true (recordFailure true s6 301) 301).fst ≠ CircuitState.OPEN := by
  decide
